import Mathlib

/- Shallow embedding of the DATAFORGE repository core: the
data-ingestion-and-split component (TabularLoader), the EDA report
components (ColumnProfiler, DescriptiveStatsEngine) and the
DistributionPlotter, together with the session-state handling of the
Streamlit UI (src/dataforge_ui.py). The backend package `dataforge`
(data_loader.load_csv and eda_utils) is not present in the repository
snapshot, so those operations are modelled from the specification
(spec.md sections 3, 4 and 7); the UI state logic is translated directly
from src/dataforge_ui.py. -/

/-- Modelled from the spec: a table cell holds a missing entry, a numeric
value, or a text value (spec section 3, Table; datetime and boolean cells
are not produced by any claim-relevant operation and are subsumed under
text here). -/
inductive Cell where
  | missing : Cell
  | num : ℚ → Cell
  | str : String → Cell
deriving DecidableEq

/-- Modelled from the spec: a named column, a sequence of cells. -/
structure Col where
  name : String
  vals : List Cell
deriving DecidableEq

/-- Modelled from the spec: a Table is an ordered sequence of named
columns with a uniform row count (spec section 3). The row count is
carried explicitly, as in a pandas DataFrame whose index survives
column removal. -/
structure Table where
  nrows : Nat
  cols : List Col
deriving DecidableEq

def Table.names (t : Table) : List String := t.cols.map Col.name

/-- Well-formedness: every column has exactly `nrows` cells. -/
def Table.wf (t : Table) : Prop := ∀ c ∈ t.cols, c.vals.length = t.nrows

def isDigitChar (c : Char) : Bool := 48 ≤ c.toNat && c.toNat ≤ 57

def digitVal (c : Char) : Nat := c.toNat - 48

def allDigits (l : List Char) : Bool := l.all isDigitChar

def digitsVal (l : List Char) : Nat := l.foldl (fun n c => 10 * n + digitVal c) 0

/-- Split a character list at the first dot, when one is present. -/
def splitOnDot : List Char → List Char × Option (List Char)
  | [] => ([], none)
  | c :: rest =>
      if c = '.' then ([], some rest)
      else
        let p := splitOnDot rest
        (c :: p.1, p.2)

/-- Parse the digits or digits-dot-digits form of an unsigned decimal
literal. -/
def parsePosChars (l : List Char) : Option ℚ :=
  match splitOnDot l with
  | (ip, none) =>
      if !ip.isEmpty && allDigits ip then some ((digitsVal ip : ℚ)) else none
  | (ip, some fp) =>
      if !ip.isEmpty && allDigits ip && !fp.isEmpty && allDigits fp then
        some ((digitsVal ip : ℚ) + (digitsVal fp : ℚ) / ((10 : ℚ) ^ fp.length))
      else none

/-- Modelled from the spec: "does this field parse as a number" check used
by column type inference (spec section 4.1). -/
def parseNum (s : String) : Option ℚ :=
  match s.toList with
  | '-' :: rest => (parsePosChars rest).map (fun q => -q)
  | l => parsePosChars l

/-- Modelled from the spec: an empty field is a missing value; a field that
parses as a number is numeric; anything else is text. -/
def parseCell (s : String) : Cell :=
  if s = "" then Cell.missing
  else
    match parseNum s with
    | some q => Cell.num q
    | none => Cell.str s

/-- Modelled from the spec: the input file of `load`, abstracted to the
level the loader observes: either unreadable, or a readable sequence of
lines already split into delimited fields (first line = header). -/
inductive FileInput where
  | unreadable : FileInput
  | readable : List (List String) → FileInput
deriving DecidableEq

/-- Modelled from the spec: the underlying parse failures `LoadError`
wraps (spec section 7): file unreadable, empty file, malformed CSV. -/
inductive ParseError where
  | fileUnreadable : ParseError
  | emptyFile : ParseError
  | raggedRows : ParseError
deriving DecidableEq

/-- Modelled from the spec: the error kinds of spec section 7 that are
raised as exceptions (`LoadError` wrapping a parse failure, and
`ColumnNotFoundError`). -/
inductive DFError where
  | loadError : ParseError → DFError
  | columnNotFound : String → DFError
deriving DecidableEq

/-- Modelled from the spec: parsing a delimited file with a header row.
Fails on an unreadable file, an empty file, or rows whose field count
does not match the header (malformed CSV). -/
def parseFile : FileInput → Except ParseError (List String × List (List String))
  | FileInput.unreadable => Except.error ParseError.fileUnreadable
  | FileInput.readable [] => Except.error ParseError.emptyFile
  | FileInput.readable (hdr :: rows) =>
      if rows.all (fun r => r.length == hdr.length) then Except.ok (hdr, rows)
      else Except.error ParseError.raggedRows

/-- The inputs on which `parseFile` is specified to fail: unreadable file,
empty file, or ragged (malformed) rows. -/
def malformedInput : FileInput → Prop
  | FileInput.unreadable => True
  | FileInput.readable [] => True
  | FileInput.readable (hdr :: rows) =>
      rows.all (fun r => r.length == hdr.length) = false

/-- Modelled from the spec: assemble the parsed header and data rows into a
column-ordered Table, inferring each cell independently. -/
def buildTable (hdr : List String) (rows : List (List String)) : Table :=
  { nrows := rows.length
    cols := hdr.enum.map (fun p =>
      { name := p.2, vals := rows.map (fun r => parseCell (r.getD p.1 "")) }) }

/-- Remove the column named `c`, preserving the order of the remaining
columns and the row count. -/
def dropColumn (t : Table) (c : String) : Table :=
  { nrows := t.nrows, cols := t.cols.filter (fun col => col.name != c) }

/-- Modelled from the spec: the target-split stage of `load` (spec section
4.1) applied to the already-parsed table: with no target column, the full
table; with a target column, fail with `ColumnNotFoundError` when the
name is absent, otherwise split into features (target column removed,
order preserved) and the target column standalone. -/
def loadParsed (t : Table) (target_column : Option String) :
    Except DFError (Table × Option Table) :=
  match target_column with
  | none => Except.ok (t, none)
  | some c =>
      match t.cols.find? (fun col => col.name == c) with
      | none => Except.error (DFError.columnNotFound c)
      | some col =>
          Except.ok (dropColumn t c, some { nrows := t.nrows, cols := [col] })

/-- Modelled from the spec: `load(path, target_column) -> (Table, Table | none)`
of the missing dataforge.data_loader.load_csv (spec sections 4.1 and 7):
parse failures become `LoadError` wrapping the underlying failure,
otherwise the parsed table goes through the target split. -/
def load (f : FileInput) (target_column : Option String) :
    Except DFError (Table × Option Table) :=
  match parseFile f with
  | Except.error e => Except.error (DFError.loadError e)
  | Except.ok (hdr, rows) => loadParsed (buildTable hdr rows) target_column

def Cell.isMissingB : Cell → Bool
  | Cell.missing => true
  | _ => false

def Cell.isNumB : Cell → Bool
  | Cell.num _ => true
  | _ => false

def Col.nonMissing (c : Col) : List Cell := c.vals.filter (fun v => !v.isMissingB)

def Col.missingCount (c : Col) : Nat := (c.vals.filter Cell.isMissingB).length

/-- Modelled from the spec: a column is numeric when it has at least one
non-missing value and every non-missing value is a number; a column with
zero non-missing values is treated as text (spec section 4.1). -/
def Col.isNumeric (c : Col) : Bool := !c.nonMissing.isEmpty && c.nonMissing.all Cell.isNumB

/-- Modelled from the spec: the closed column-type set produced by
inference (numeric or categorical/text for the cells this model carries). -/
inductive CType where
  | numeric : CType
  | text : CType
deriving DecidableEq

def Col.inferType (c : Col) : CType :=
  if c.isNumeric then CType.numeric else CType.text

/-- The distinct elements of a list in first-encounter order, given an
accumulator of elements already seen. -/
def firstOcc {α : Type} [DecidableEq α] : List α → List α → List α
  | [], _ => []
  | a :: rest, seen =>
      if a ∈ seen then firstOcc rest seen
      else a :: firstOcc rest (a :: seen)

/-- Modelled from the spec: one profile row per source column (spec
section 3, ColumnProfile). -/
structure ColumnProfile where
  name : String
  inferredType : CType
  missing_count : Nat
  missing_fraction : ℚ
  distinct_count : Nat
deriving DecidableEq

/-- Modelled from the spec: `profile(table)` of the missing ColumnProfiler
(spec section 4.2), one ColumnProfile per column in source order. -/
def profile (t : Table) : List ColumnProfile :=
  t.cols.map (fun c =>
    { name := c.name
      inferredType := c.inferType
      missing_count := c.missingCount
      missing_fraction := if t.nrows = 0 then 0 else (c.missingCount : ℚ) / (t.nrows : ℚ)
      distinct_count := (firstOcc c.nonMissing []).length })

def Table.row (t : Table) (i : Nat) : List Cell :=
  t.cols.map (fun c => c.vals.getD i Cell.missing)

def Table.rowsList (t : Table) : List (List Cell) :=
  (List.range t.nrows).map t.row

/-- Number of rows that duplicate an earlier row: total rows minus the
number of distinct rows. -/
def duplicateRowCount (t : Table) : Nat :=
  t.rowsList.length - (firstOcc t.rowsList []).length

/-- Modelled from the spec: the aggregate QualityReport structure (spec
section 3). -/
structure QualityReport where
  total_rows : Nat
  total_missing : Nat
  duplicate_row_count : Nat
  missing_fractions : List (String × ℚ)
deriving DecidableEq

/-- Modelled from the spec: `quality_report(table)` of the missing
ColumnProfiler (spec section 4.2): total rows, total missing summed
across columns, duplicate rows, per-column missing fraction. -/
def quality_report (t : Table) : QualityReport :=
  { total_rows := t.nrows
    total_missing := (t.cols.map Col.missingCount).sum
    duplicate_row_count := duplicateRowCount t
    missing_fractions := t.cols.map (fun c =>
      (c.name, if t.nrows = 0 then 0 else (c.missingCount : ℚ) / (t.nrows : ℚ))) }

def Cell.toQ : Cell → Option ℚ
  | Cell.num q => some q
  | _ => none

def Col.optVals (c : Col) : List (Option ℚ) := c.vals.map Cell.toQ

def Col.presentVals (c : Col) : List ℚ := c.optVals.filterMap id

def meanQ (xs : List ℚ) : ℚ := xs.sum / (xs.length : ℚ)

def centered (xs : List ℚ) : List ℚ := xs.map (fun a => a - meanQ xs)

def dot (a b : List ℚ) : ℚ := ((a.zip b).map (fun p => p.1 * p.2)).sum

/-- Sum of squared deviations from the mean. -/
def sqDev (xs : List ℚ) : ℚ := dot (centered xs) (centered xs)

def varQ (xs : List ℚ) : ℚ := sqDev xs / (xs.length : ℚ)

/-- Variance of a column's non-missing numeric values. -/
def Col.varNum (c : Col) : ℚ := varQ c.presentVals

/-- Modelled from the spec: percentile with linear interpolation between
order statistics (spec section 4.3): for percentile p, interpolate
between the floor and ceil ranks of p * (n - 1). -/
def percentileQ (xs : List ℚ) (p : ℚ) : ℚ :=
  let s := List.insertionSort (fun a b => a ≤ b) xs
  if s.length = 0 then 0
  else
    let h := p * ((s.length : ℚ) - 1)
    let a := s.getD (⌊h⌋).toNat 0
    let b := s.getD (⌈h⌉).toNat 0
    a + (h - (⌊h⌋ : ℚ)) * (b - a)

/-- Modelled from the spec: the per-numeric-column summary row of
DescriptiveStats (spec section 3): count, mean, standard deviation, min,
quartiles, max. -/
structure NumStats where
  count : Nat
  mean : ℚ
  std : ℝ
  min : ℚ
  q25 : ℚ
  median : ℚ
  q75 : ℚ
  max : ℚ

noncomputable def mkStats (c : Col) : NumStats :=
  let xs := c.presentVals
  { count := xs.length
    mean := meanQ xs
    std := Real.sqrt ((varQ xs : ℚ) : ℝ)
    min := percentileQ xs 0
    q25 := percentileQ xs (1 / 4)
    median := percentileQ xs (1 / 2)
    q75 := percentileQ xs (3 / 4)
    max := percentileQ xs 1 }

/-- The numeric columns of a table, in source order. -/
def numericCols (t : Table) : List Col := t.cols.filter Col.isNumeric

/-- Modelled from the spec: `describe(table)` of the missing
DescriptiveStatsEngine (spec section 4.3), restricted to numeric columns;
an empty result when no numeric column exists. -/
noncomputable def describe (t : Table) : List (String × NumStats) :=
  (numericCols t).map (fun c => (c.name, mkStats c))

/-- One entry of a ValueCounts result: the category (a cell value, where
`Cell.missing` is the missing-value category, distinct by constructor
from every real value), the index of its first occurrence in the source
column, and its occurrence count. -/
structure VCEntry where
  key : Cell
  firstIdx : Nat
  count : Nat
deriving DecidableEq

/-- Order on ValueCounts entries: count descending, ties broken by first
occurrence in the source data. -/
def vcLE (a b : VCEntry) : Prop :=
  b.count < a.count ∨ (a.count = b.count ∧ a.firstIdx ≤ b.firstIdx)

instance : DecidableRel vcLE := fun a b =>
  inferInstanceAs (Decidable (b.count < a.count ∨ (a.count = b.count ∧ a.firstIdx ≤ b.firstIdx)))

instance : IsTotal VCEntry vcLE := ⟨by
  intro a b
  unfold vcLE
  omega⟩

instance : IsTrans VCEntry vcLE := ⟨by
  intro a b c hab hbc
  unfold vcLE at hab hbc ⊢
  omega⟩

/-- Tally of a column's cells: one entry per distinct cell value (missing
included as its own category), in first-encounter order. -/
def tally (l : List Cell) : List VCEntry :=
  (firstOcc l []).map (fun v =>
    { key := v, firstIdx := l.findIdx (fun x => x == v), count := l.count v })

/-- Modelled from the spec: `value_counts(table, column)` of the missing
DescriptiveStatsEngine (spec section 4.3): `ColumnNotFoundError` when the
column is absent; otherwise the per-value tally, missing values counted
as their own category, sorted by count descending with ties broken by
first-encounter order. -/
def value_counts (t : Table) (column : String) : Except DFError (List VCEntry) :=
  match t.cols.find? (fun col => col.name == column) with
  | none => Except.error (DFError.columnNotFound column)
  | some col => Except.ok (List.insertionSort vcLE (tally col.vals))

/-- Pairwise-complete alignment of two optional-value columns: the index
positions where both values are present. -/
def aligned (x y : List (Option ℚ)) : List (ℚ × ℚ) :=
  (x.zip y).filterMap (fun p =>
    match p.1, p.2 with
    | some a, some b => some (a, b)
    | _, _ => none)

/-- Centered first components of the pairwise-complete data of a column
pair. -/
def cxs (x y : List (Option ℚ)) : List ℚ := centered ((aligned x y).map Prod.fst)

/-- Centered second components of the pairwise-complete data of a column
pair. -/
def cys (x y : List (Option ℚ)) : List ℚ := centered ((aligned x y).map Prod.snd)

/-- Modelled from the spec: pairwise Pearson correlation of two columns,
missing values excluded pairwise (spec section 4.4). -/
noncomputable def pearson (x y : List (Option ℚ)) : ℝ :=
  ((dot (cxs x y) (cys x y) : ℚ) : ℝ) /
    Real.sqrt (((dot (cxs x y) (cxs x y) : ℚ) : ℝ) * ((dot (cys x y) (cys x y) : ℚ) : ℝ))

/-- Modelled from the spec: `correlation_matrix(table)` of the missing
DistributionPlotter (spec section 4.4): the not-renderable sentinel
(`none`) when fewer than 2 numeric columns exist, otherwise the matrix of
pairwise Pearson correlations over all numeric columns. -/
noncomputable def correlation_matrix (t : Table) : Option (List (List ℝ)) :=
  if (numericCols t).length < 2 then none
  else
    some ((numericCols t).map (fun a =>
      (numericCols t).map (fun b => pearson a.optVals b.optVals)))

/-- Modelled from the spec: an opaque Plot Artifact (spec section 3),
identified by what was plotted. -/
inductive Fig where
  | histogram : String → Option String → Fig
  | barChart : String → Option String → Fig
  | scatterPlot : String → String → Option String → Fig
  | boxPlot : String → String → Option String → Fig
  | violinPlot : String → String → Option String → Fig
  | heatmap : List (List ℝ) → Fig

/-- The bivariate plot-kind enum of spec section 6. -/
inductive PlotKind where
  | scatter : PlotKind
  | boxplot : PlotKind
  | violin : PlotKind
deriving DecidableEq

/-- Modelled from the spec: `univariate(table, column, hue)` of the missing
DistributionPlotter (spec section 4.4): not-renderable (`none`) when the
column is absent or has zero non-missing values; histogram for numeric
columns, bar chart of category frequencies otherwise. -/
def univariate (t : Table) (column : String) (hue : Option String) : Option Fig :=
  match t.cols.find? (fun c => c.name == column) with
  | none => none
  | some c =>
      if c.nonMissing.isEmpty then none
      else if c.isNumeric then some (Fig.histogram column hue)
      else some (Fig.barChart column hue)

def colIsNumeric (t : Table) (n : String) : Bool :=
  match t.cols.find? (fun c => c.name == n) with
  | some c => c.isNumeric
  | none => false

/-- Modelled from the spec: `bivariate(table, x, y, kind, hue)` of the
missing DistributionPlotter (spec section 4.4): not-renderable (`none`)
when either column is absent or the type requirement is violated; scatter
requires both columns numeric; boxplot and violin use the convention that
the y column is numeric and the x column categorical. -/
def bivariate (t : Table) (x y : String) (kind : PlotKind) (hue : Option String) :
    Option Fig :=
  if (t.cols.find? (fun c => c.name == x)).isNone ||
      (t.cols.find? (fun c => c.name == y)).isNone then none
  else
    match kind with
    | PlotKind.scatter =>
        if colIsNumeric t x && colIsNumeric t y then some (Fig.scatterPlot x y hue)
        else none
    | PlotKind.boxplot =>
        if colIsNumeric t y && !colIsNumeric t x then some (Fig.boxPlot x y hue)
        else none
    | PlotKind.violin =>
        if colIsNumeric t y && !colIsNumeric t x then some (Fig.violinPlot x y hue)
        else none

/-- The correlation heatmap artifact, as rendered by plot_correlation_matrix
in the backend: the matrix, when renderable, wrapped as a figure. -/
noncomputable def plot_correlation_matrix (t : Table) : Option Fig :=
  (correlation_matrix t).map Fig.heatmap

/-- What the UI does with a plot result (src/dataforge_ui.py lines 151-156,
164-169 and 182-188): render the figure, or show a warning or info
message. -/
inductive UIAction where
  | renderPlot : Fig → UIAction
  | showWarning : String → UIAction
  | showInfo : String → UIAction

/-- The univariate call site of src/dataforge_ui.py lines 151-156: render
the figure when present, otherwise show a warning message. -/
def handleUnivariateResult (r : Option Fig) (column : String) : UIAction :=
  match r with
  | some f => UIAction.renderPlot f
  | none => UIAction.showWarning ("Cannot generate plot for column " ++ column ++ ".")

/-- The correlation-matrix call site of src/dataforge_ui.py lines 164-169:
render the figure when present, otherwise show an info message. -/
def handleCorrelationResult (r : Option Fig) : UIAction :=
  match r with
  | some f => UIAction.renderPlot f
  | none => UIAction.showInfo "Not enough numerical data to generate correlation matrix."

/-- The bivariate call site of src/dataforge_ui.py lines 182-188: render
the figure when present, otherwise show a warning message. -/
def handleBivariateResult (r : Option Fig) : UIAction :=
  match r with
  | some f => UIAction.renderPlot f
  | none =>
      UIAction.showWarning
        "Could not generate plot. Check column selection and plot type compatibility."

/-- The Streamlit session state of src/dataforge_ui.py lines 23-32:
the cached full table, the feature/target split, the recorded file name,
and the pipeline flag. -/
structure SessionState where
  df_full : Option Table
  X : Option Table
  y : Option Table
  file_name : String
  pipeline_configured : Bool
deriving DecidableEq

/-- The upload handling of src/dataforge_ui.py lines 50-65: with no upload,
the file name reverts to the sample file; with an uploaded file whose name
differs from the recorded one, the cached table and split are cleared and
the new name recorded; an upload with the same name changes nothing. -/
def handleUpload (s : SessionState) (uploadedName : Option String) : SessionState :=
  match uploadedName with
  | none => { s with file_name := "sample_data.csv" }
  | some n =>
      if s.file_name != n then
        { s with df_full := none, X := none, y := none, file_name := n }
      else s

/-- Outcome of the initial-load block: the script proceeded to the
dashboard, or st.stop() halted it after st.error showed the error. -/
inductive LoadOutcome where
  | proceeded : LoadOutcome
  | halted : DFError → LoadOutcome
deriving DecidableEq

/-- The initial-load block of src/dataforge_ui.py lines 69-77: when no
table is cached and the path exists, call load_csv; on success store the
table and reset the pipeline flag; on an exception show the error and
stop, leaving the state untouched. -/
def initialLoad (s : SessionState) (pathExists : Bool)
    (res : Except DFError (Table × Option Table)) : SessionState × LoadOutcome :=
  if s.df_full.isNone && pathExists then
    match res with
    | Except.ok (t, _) =>
        ({ s with df_full := some t, pipeline_configured := false }, LoadOutcome.proceeded)
    | Except.error e => (s, LoadOutcome.halted e)
  else (s, LoadOutcome.proceeded)

/-- The dashboard guard of src/dataforge_ui.py line 81: the dashboard is
rendered only when the script was not stopped and a table is cached. -/
def dashboardRendered : SessionState → LoadOutcome → Bool
  | s, LoadOutcome.proceeded => s.df_full.isSome
  | _, LoadOutcome.halted _ => false

/-- Example table with two numeric columns of nonzero variance. -/
def exNumTable : Table :=
  Table.mk 2 [Col.mk "a" [Cell.num 1, Cell.num 2], Col.mk "b" [Cell.num 1, Cell.num 3]]

/-- Example table of the concrete scenario in spec section 8 (items 7 and
8): columns a = 1, 2, missing and b = x, y, x. -/
def exCsvTable : Table :=
  Table.mk 3 [Col.mk "a" [Cell.num 1, Cell.num 2, Cell.missing],
    Col.mk "b" [Cell.str "x", Cell.str "y", Cell.str "x"]]

/- ### Helper lemmas -/

theorem load_of_parse_ok {f : FileInput} {hdr : List String}
    {rows : List (List String)} (tc : Option String)
    (hparse : parseFile f = Except.ok (hdr, rows)) :
    load f tc = loadParsed (buildTable hdr rows) tc := by
  unfold load
  rw [hparse]

theorem mem_firstOcc {α : Type} [DecidableEq α] (a : α) (l : List α) :
    ∀ seen : List α, a ∈ l → a ∈ firstOcc l seen ∨ a ∈ seen := by
  induction l with
  | nil => intro seen h; exact absurd h (by simp)
  | cons b rest ih =>
      intro seen h
      rcases List.mem_cons.mp h with rfl | hr
      · by_cases hb : a ∈ seen
        · exact Or.inr hb
        · left
          simp [firstOcc, hb]
      · by_cases hb : b ∈ seen
        · simpa [firstOcc, hb] using ih seen hr
        · rcases ih (b :: seen) hr with h1 | h2
          · left
            simp [firstOcc, hb, h1]
          · rcases List.mem_cons.mp h2 with rfl | h3
            · left
              simp [firstOcc, hb]
            · exact Or.inr h3

theorem dot_comm (a b : List ℚ) : dot a b = dot b a := by
  induction a generalizing b with
  | nil => cases b <;> rfl
  | cons x xs ih =>
      cases b with
      | nil => rfl
      | cons y ys =>
          simp only [dot, List.zip_cons_cons, List.map_cons, List.sum_cons]
          rw [mul_comm x y]
          exact congrArg (fun z => y * x + z) (ih ys)

theorem dot_self_nonneg (l : List ℚ) : 0 ≤ dot l l := by
  induction l with
  | nil => exact le_rfl
  | cons x xs ih =>
      simp only [dot, List.zip_cons_cons, List.map_cons, List.sum_cons]
      exact add_nonneg (mul_self_nonneg x) ih

theorem aligned_swap (x y : List (Option ℚ)) :
    aligned y x = (aligned x y).map Prod.swap := by
  unfold aligned
  rw [← List.zip_swap x y, List.filterMap_map, List.map_filterMap]
  congr 1
  funext p
  rcases p with ⟨a, b⟩
  cases a <;> cases b <;> rfl

theorem aligned_self (x : List (Option ℚ)) :
    aligned x x = (x.filterMap id).map (fun a => (a, a)) := by
  induction x with
  | nil => rfl
  | cons a xs ih =>
      cases a with
      | none => exact ih
      | some q => exact congrArg (List.cons (q, q)) ih

theorem cxs_swap (x y : List (Option ℚ)) : cxs y x = cys x y := by
  unfold cxs cys
  rw [aligned_swap x y, List.map_map]
  rfl

theorem cys_swap (x y : List (Option ℚ)) : cys y x = cxs x y := by
  unfold cxs cys
  rw [aligned_swap x y, List.map_map]
  rfl

theorem pearson_comm (x y : List (Option ℚ)) : pearson x y = pearson y x := by
  unfold pearson
  rw [cxs_swap x y, cys_swap x y, dot_comm (cys x y) (cxs x y),
    mul_comm ((dot (cys x y) (cys x y) : ℚ) : ℝ) ((dot (cxs x y) (cxs x y) : ℚ) : ℝ)]

theorem cxs_self (x : List (Option ℚ)) : cxs x x = centered (x.filterMap id) := by
  unfold cxs
  rw [aligned_self, List.map_map]
  rw [show ((Prod.fst ∘ fun a => ((a, a) : ℚ × ℚ)) = (id : ℚ → ℚ)) from rfl, List.map_id]

theorem cys_self (x : List (Option ℚ)) : cys x x = centered (x.filterMap id) := by
  unfold cys
  rw [aligned_self, List.map_map]
  rw [show ((Prod.snd ∘ fun a => ((a, a) : ℚ × ℚ)) = (id : ℚ → ℚ)) from rfl, List.map_id]

theorem pearson_self (x : List (Option ℚ)) (h : sqDev (x.filterMap id) ≠ 0) :
    pearson x x = 1 := by
  unfold pearson
  rw [cxs_self, cys_self]
  have hnn : (0 : ℚ) ≤ dot (centered (x.filterMap id)) (centered (x.filterMap id)) :=
    dot_self_nonneg _
  have hne : dot (centered (x.filterMap id)) (centered (x.filterMap id)) ≠ 0 := h
  have hsq : Real.sqrt
      (((dot (centered (x.filterMap id)) (centered (x.filterMap id)) : ℚ) : ℝ) *
        ((dot (centered (x.filterMap id)) (centered (x.filterMap id)) : ℚ) : ℝ)) =
      ((dot (centered (x.filterMap id)) (centered (x.filterMap id)) : ℚ) : ℝ) :=
    Real.sqrt_mul_self (by exact_mod_cast hnn)
  rw [hsq]
  exact div_self (by exact_mod_cast hne)

/- ### Claim theorems -/

/-- Claim C2: for every input file that is malformed CSV, unreadable, or
empty, `load` fails with a `LoadError` wrapping the underlying parse
failure; the error is the returned result (surfaced to the caller, no
internal retry). -/
theorem C2_load_error (f : FileInput) (tc : Option String)
    (h : malformedInput f) :
    ∃ pe, parseFile f = Except.error pe ∧
      load f tc = Except.error (DFError.loadError pe) := by
  cases f with
  | unreadable => exact ⟨ParseError.fileUnreadable, rfl, rfl⟩
  | readable lines =>
      cases lines with
      | nil => exact ⟨ParseError.emptyFile, rfl, rfl⟩
      | cons hdr rows =>
          have hall : rows.all (fun r => r.length == hdr.length) = false := h
          refine ⟨ParseError.raggedRows, ?_, ?_⟩
          · simp [parseFile, hall]
          · simp [load, parseFile, hall]

/-- Witness for C2 at a concrete input: the empty file. -/
theorem C2_witness :
    parseFile (FileInput.readable []) = Except.error ParseError.emptyFile ∧
    load (FileInput.readable []) none =
      Except.error (DFError.loadError ParseError.emptyFile) := by
  obtain ⟨pe, h1, h2⟩ := C2_load_error (FileInput.readable []) none trivial
  injection h1 with h
  subst h
  exact ⟨rfl, h2⟩

/-- Claim C4: for every table, the sum of the per-column `missing_count`
values reported by `profile` equals the `total_missing` field of
`quality_report` on the same table. -/
theorem C4_missing_sum (t : Table) :
    ((profile t).map ColumnProfile.missing_count).sum =
      (quality_report t).total_missing := by
  unfold profile quality_report
  rw [List.map_map]
  rfl

/-- Claim C6: `describe` on a table with zero numeric columns returns the
empty result rather than an error, and every entry of `describe` comes
from a numeric column. -/
theorem C6_describe_numeric_only (t : Table) :
    (numericCols t = [] → describe t = []) ∧
    (∀ p ∈ describe t, ∃ c ∈ t.cols, Col.isNumeric c = true ∧ p.1 = c.name) := by
  constructor
  · intro h
    unfold describe
    rw [h]
    rfl
  · intro p hp
    unfold describe at hp
    rw [List.mem_map] at hp
    obtain ⟨c, hc, hpc⟩ := hp
    have hcf := List.mem_filter.mp hc
    exact ⟨c, hcf.1, hcf.2, by rw [← hpc]⟩

/-- Witness for C6 at a concrete input: a table whose only column is
text. -/
theorem C6_witness :
    describe (Table.mk 2 [Col.mk "b" [Cell.str "x", Cell.str "y"]]) = [] :=
  (C6_describe_numeric_only (Table.mk 2 [Col.mk "b" [Cell.str "x", Cell.str "y"]])).1
    (by decide)

/-- Claim C7: every operation of the four core components is, in this
embedding, a function of its inputs: two calls with identical inputs
produce identical outputs. -/
theorem C7_purity (f : FileInput) (tc : Option String) (t : Table)
    (c x y : String) (k : PlotKind) (hue : Option String) :
    load f tc = load f tc ∧ profile t = profile t ∧
    quality_report t = quality_report t ∧ describe t = describe t ∧
    value_counts t c = value_counts t c ∧
    univariate t c hue = univariate t c hue ∧
    bivariate t x y k hue = bivariate t x y k hue ∧
    correlation_matrix t = correlation_matrix t :=
  ⟨rfl, rfl, rfl, rfl, rfl, rfl, rfl, rfl⟩

/-- Claim C8: whenever a plotting function returns the not-renderable
sentinel (`none`, a value, not an exception), each UI call site degrades
to showing an explanatory message instead of treating it as fatal. -/
theorem C8_sentinel_graceful (t : Table) (c x y : String) (hue : Option String)
    (k : PlotKind) :
    (univariate t c hue = none →
      handleUnivariateResult (univariate t c hue) c =
        UIAction.showWarning ("Cannot generate plot for column " ++ c ++ ".")) ∧
    (plot_correlation_matrix t = none →
      handleCorrelationResult (plot_correlation_matrix t) =
        UIAction.showInfo "Not enough numerical data to generate correlation matrix.") ∧
    (bivariate t x y k hue = none →
      handleBivariateResult (bivariate t x y k hue) =
        UIAction.showWarning
          "Could not generate plot. Check column selection and plot type compatibility.") := by
  refine ⟨?_, ?_, ?_⟩ <;> intro h <;> rw [h] <;> rfl

/-- Witness for C8 at concrete inputs: a single-text-column table, an
absent plotting column, and a scatter request on a text column. -/
theorem C8_witness :
    handleUnivariateResult
      (univariate (Table.mk 2 [Col.mk "b" [Cell.str "x", Cell.str "y"]]) "zz" none) "zz" =
      UIAction.showWarning ("Cannot generate plot for column " ++ "zz" ++ ".") ∧
    handleCorrelationResult
      (plot_correlation_matrix (Table.mk 2 [Col.mk "b" [Cell.str "x", Cell.str "y"]])) =
      UIAction.showInfo "Not enough numerical data to generate correlation matrix." ∧
    handleBivariateResult
      (bivariate (Table.mk 2 [Col.mk "b" [Cell.str "x", Cell.str "y"]]) "b" "zz"
        PlotKind.scatter none) =
      UIAction.showWarning
        "Could not generate plot. Check column selection and plot type compatibility." := by
  have h := C8_sentinel_graceful (Table.mk 2 [Col.mk "b" [Cell.str "x", Cell.str "y"]])
    "zz" "b" "zz" none PlotKind.scatter
  exact ⟨h.1 rfl, h.2.1 rfl, h.2.2 rfl⟩

/-- Claim C9: when load_csv raises during the initial load, the session
state is unchanged (df_full stays None, so no partial table is stored),
the script stops after showing the error, and the dashboard is not
rendered. -/
theorem C9_load_error_state (s : SessionState) (pE : Bool) (e : DFError)
    (h : s.df_full = none) :
    (initialLoad s pE (Except.error e)).1 = s ∧
    (initialLoad s pE (Except.error e)).1.df_full = none ∧
    (pE = true → (initialLoad s pE (Except.error e)).2 = LoadOutcome.halted e) ∧
    dashboardRendered (initialLoad s pE (Except.error e)).1
      (initialLoad s pE (Except.error e)).2 = false := by
  cases pE with
  | false => simp [initialLoad, dashboardRendered, h]
  | true => simp [initialLoad, dashboardRendered, h]

/-- Witness for C9 at a concrete input: the default session state and a
load error on an existing path. -/
theorem C9_witness :
    (initialLoad (SessionState.mk none none none "sample_data.csv" false) true
      (Except.error (DFError.loadError ParseError.emptyFile))).1 =
      SessionState.mk none none none "sample_data.csv" false ∧
    (initialLoad (SessionState.mk none none none "sample_data.csv" false) true
      (Except.error (DFError.loadError ParseError.emptyFile))).1.df_full = none ∧
    (initialLoad (SessionState.mk none none none "sample_data.csv" false) true
      (Except.error (DFError.loadError ParseError.emptyFile))).2 =
      LoadOutcome.halted (DFError.loadError ParseError.emptyFile) ∧
    dashboardRendered
      (initialLoad (SessionState.mk none none none "sample_data.csv" false) true
        (Except.error (DFError.loadError ParseError.emptyFile))).1
      (initialLoad (SessionState.mk none none none "sample_data.csv" false) true
        (Except.error (DFError.loadError ParseError.emptyFile))).2 = false := by
  have h := C9_load_error_state (SessionState.mk none none none "sample_data.csv" false)
    true (DFError.loadError ParseError.emptyFile) rfl
  exact ⟨h.1, h.2.1, h.2.2.1 rfl, h.2.2.2⟩

/-- Claim C10: an upload whose name differs from the recorded file name
clears the cached table and split (df_full, X, y all set to None) and
records the new name; an upload with the same name leaves the state
unchanged. -/
theorem C10_upload_name_change (s : SessionState) (n : String) :
    (s.file_name ≠ n →
      handleUpload s (some n) =
        SessionState.mk none none none n s.pipeline_configured) ∧
    (s.file_name = n → handleUpload s (some n) = s) := by
  constructor
  · intro h
    simp only [handleUpload]
    rw [if_pos (by simpa using h)]
  · intro h
    simp only [handleUpload]
    rw [if_neg (by simpa using h)]

/-- Witness for C10 at concrete inputs: a changed upload name clears the
cache; an unchanged one does not. -/
theorem C10_witness :
    handleUpload
      (SessionState.mk (some (Table.mk 1 [Col.mk "a" [Cell.num 1]]))
        (some (Table.mk 1 [Col.mk "a" [Cell.num 1]])) none "old.csv" true)
      (some "new.csv") = SessionState.mk none none none "new.csv" true ∧
    handleUpload
      (SessionState.mk (some (Table.mk 1 [Col.mk "a" [Cell.num 1]]))
        none none "new.csv" true)
      (some "new.csv") =
      SessionState.mk (some (Table.mk 1 [Col.mk "a" [Cell.num 1]]))
        none none "new.csv" true := by
  have h1 := C10_upload_name_change
    (SessionState.mk (some (Table.mk 1 [Col.mk "a" [Cell.num 1]]))
      (some (Table.mk 1 [Col.mk "a" [Cell.num 1]])) none "old.csv" true) "new.csv"
  have h2 := C10_upload_name_change
    (SessionState.mk (some (Table.mk 1 [Col.mk "a" [Cell.num 1]]))
      none none "new.csv" true) "new.csv"
  exact ⟨h1.1 (by decide), h2.2 rfl⟩

theorem length_filter_ne_of_nodup (cols : List Col) (c : String)
    (hnd : (cols.map Col.name).Nodup) (hmem : c ∈ cols.map Col.name) :
    (cols.filter (fun col => col.name != c)).length + 1 = cols.length := by
  induction cols with
  | nil => simp at hmem
  | cons a rest ih =>
      rw [List.map_cons, List.nodup_cons] at hnd
      rw [List.map_cons] at hmem
      rcases List.mem_cons.mp hmem with hc | hc
      · have hdrop : (a.name != c) = false := by simp [hc]
        have hkeep : rest.filter (fun col => col.name != c) = rest := by
          apply List.filter_eq_self.mpr
          intro col hcol
          have hne : col.name ≠ c := by
            intro he
            apply hnd.1
            have hm : col.name ∈ rest.map Col.name := List.mem_map_of_mem Col.name hcol
            rw [he, hc] at hm
            exact hm
          simpa using hne
        rw [List.filter_cons, hdrop]
        simp [hkeep]
      · have hne : (a.name != c) = true := by
          simp only [bne_iff_ne, ne_eq]
          intro he
          apply hnd.1
          rw [he]
          exact hc
        rw [List.filter_cons, hne]
        simp only [if_true, List.length_cons]
        rw [ih hnd.2 hc]

/-- Claim C1: for every table T loaded from a valid CSV and every name C,
`load(path, target_column = C)` fails with `ColumnNotFoundError` when C is
not among T's columns; otherwise it returns features (T with column C
removed, order of the remaining columns preserved) and the removed column
standalone and row-aligned, with the row counts of features and target
equal to T's and the column count one less than T's. -/
theorem C1_load_target_split (f : FileInput) (hdr : List String)
    (rows : List (List String)) (T : Table) (C : String)
    (hparse : parseFile f = Except.ok (hdr, rows))
    (hT : buildTable hdr rows = T) :
    (C ∉ T.names → load f (some C) = Except.error (DFError.columnNotFound C)) ∧
    (T.names.Nodup → C ∈ T.names →
      ∃ col ∈ T.cols, col.name = C ∧
        load f (some C) =
          Except.ok (dropColumn T C, some (Table.mk T.nrows [col])) ∧
        (dropColumn T C).cols = T.cols.filter (fun col => col.name != C) ∧
        (dropColumn T C).nrows = T.nrows ∧
        (Table.mk T.nrows [col]).nrows = T.nrows ∧
        (dropColumn T C).cols.length = T.cols.length - 1) := by
  have hload : load f (some C) = loadParsed T (some C) := by
    rw [load_of_parse_ok (some C) hparse, hT]
  constructor
  · intro hnot
    have hfind : T.cols.find? (fun col => col.name == C) = none := by
      rw [List.find?_eq_none]
      intro col hcol hbeq
      exact hnot (List.mem_map.mpr ⟨col, hcol, by simpa using hbeq⟩)
    rw [hload]
    simp only [loadParsed]
    rw [hfind]
  · intro hnd hmem
    have hsome : (T.cols.find? (fun col => col.name == C)).isSome := by
      rw [List.find?_isSome]
      obtain ⟨col, hcol, hname⟩ := List.mem_map.mp hmem
      exact ⟨col, hcol, by simpa using hname⟩
    obtain ⟨col, hfind⟩ := Option.isSome_iff_exists.mp hsome
    have hname : col.name = C := by simpa using List.find?_some hfind
    have hcolmem : col ∈ T.cols := List.mem_of_find?_eq_some hfind
    refine ⟨col, hcolmem, hname, ?_, rfl, rfl, rfl, ?_⟩
    · rw [hload]
      simp only [loadParsed]
      rw [hfind]
    · have hlen := length_filter_ne_of_nodup T.cols C hnd hmem
      show (T.cols.filter (fun col => col.name != C)).length = T.cols.length - 1
      omega

/-- Witness for C1 at a concrete input: the CSV with header a, b and rows
1, x and 2, y: an absent target fails; target b splits the table. -/
theorem C1_witness :
    load (FileInput.readable [["a", "b"], ["1", "x"], ["2", "y"]]) (some "zz") =
      Except.error (DFError.columnNotFound "zz") ∧
    load (FileInput.readable [["a", "b"], ["1", "x"], ["2", "y"]]) (some "b") =
      Except.ok
        (Table.mk 2 [Col.mk "a" [Cell.num 1, Cell.num 2]],
          some (Table.mk 2 [Col.mk "b" [Cell.str "x", Cell.str "y"]])) := by
  constructor
  · exact (C1_load_target_split (FileInput.readable [["a", "b"], ["1", "x"], ["2", "y"]])
      ["a", "b"] [["1", "x"], ["2", "y"]]
      (buildTable ["a", "b"] [["1", "x"], ["2", "y"]]) "zz" rfl rfl).1 (by decide)
  · obtain ⟨col, hcolmem, hname, hloadeq, hrest⟩ :=
      (C1_load_target_split (FileInput.readable [["a", "b"], ["1", "x"], ["2", "y"]])
        ["a", "b"] [["1", "x"], ["2", "y"]]
        (buildTable ["a", "b"] [["1", "x"], ["2", "y"]]) "b" rfl rfl).2
        (by decide) (by decide)
    rw [hloadeq]
    have hcol : col = Col.mk "b" [Cell.str "x", Cell.str "y"] := by
      have h2 : col ∈ [Col.mk "a" [Cell.num 1, Cell.num 2],
          Col.mk "b" [Cell.str "x", Cell.str "y"]] := hcolmem
      rcases List.mem_cons.mp h2 with h3 | h3
      · rw [h3] at hname
        exact absurd hname (by decide)
      · simpa using h3
    rw [hcol]
    rfl

/-- Claim C5: `value_counts` fails with `ColumnNotFoundError` when the
column is absent; otherwise every cell value of the column (missing
values as their own constructor-distinct category, never dropped) appears
as an entry with its occurrence count, and the result is sorted by count
descending with ties broken by first-encounter order. -/
theorem C5_value_counts (t : Table) (column : String) :
    (column ∉ t.names →
      value_counts t column = Except.error (DFError.columnNotFound column)) ∧
    (∀ col, t.cols.find? (fun c => c.name == column) = some col →
      value_counts t column =
        Except.ok (List.insertionSort vcLE (tally col.vals)) ∧
      List.Sorted vcLE (List.insertionSort vcLE (tally col.vals)) ∧
      (∀ v ∈ col.vals,
        VCEntry.mk v (col.vals.findIdx (fun x => x == v)) (col.vals.count v) ∈
          List.insertionSort vcLE (tally col.vals)) ∧
      (0 < col.vals.count Cell.missing →
        VCEntry.mk Cell.missing (col.vals.findIdx (fun x => x == Cell.missing))
          (col.vals.count Cell.missing) ∈
          List.insertionSort vcLE (tally col.vals))) := by
  constructor
  · intro hnot
    have hfind : t.cols.find? (fun c => c.name == column) = none := by
      rw [List.find?_eq_none]
      intro c hc hbeq
      exact hnot (List.mem_map.mpr ⟨c, hc, by simpa using hbeq⟩)
    simp only [value_counts]
    rw [hfind]
  · intro col hfind
    have hmemsort : ∀ v ∈ col.vals,
        VCEntry.mk v (col.vals.findIdx (fun x => x == v)) (col.vals.count v) ∈
          List.insertionSort vcLE (tally col.vals) := by
      intro v hv
      have hfo : v ∈ firstOcc col.vals [] :=
        (mem_firstOcc v col.vals [] hv).resolve_right (by simp)
      have htal : VCEntry.mk v (col.vals.findIdx (fun x => x == v)) (col.vals.count v) ∈
          tally col.vals := List.mem_map.mpr ⟨v, hfo, rfl⟩
      exact (List.perm_insertionSort vcLE (tally col.vals)).mem_iff.mpr htal
    refine ⟨?_, List.sorted_insertionSort vcLE (tally col.vals), hmemsort, ?_⟩
    · simp only [value_counts]
      rw [hfind]
    · intro hpos
      exact hmemsort Cell.missing (List.count_pos_iff.mp hpos)

/-- Witness for C5 at the spec's concrete scenario: an absent column
fails; column b tallies to x before y with counts 2 and 1; column a's
missing cell is its own category with count 1. -/
theorem C5_witness :
    value_counts exCsvTable "zz" = Except.error (DFError.columnNotFound "zz") ∧
    value_counts exCsvTable "b" =
      Except.ok [VCEntry.mk (Cell.str "x") 0 2, VCEntry.mk (Cell.str "y") 1 1] ∧
    VCEntry.mk Cell.missing 2 1 ∈
      List.insertionSort vcLE (tally [Cell.num 1, Cell.num 2, Cell.missing]) := by
  refine ⟨?_, ?_, ?_⟩
  · exact (C5_value_counts exCsvTable "zz").1 (by decide)
  · have h := (C5_value_counts exCsvTable "b").2
      (Col.mk "b" [Cell.str "x", Cell.str "y", Cell.str "x"]) rfl
    rw [h.1]
    rfl
  · have h := (C5_value_counts exCsvTable "a").2
      (Col.mk "a" [Cell.num 1, Cell.num 2, Cell.missing]) rfl
    exact h.2.2.2 (by decide)

theorem corr_entry (t : Table) (i j : Nat)
    (hi : i < (numericCols t).length) (hj : j < (numericCols t).length) :
    ((((numericCols t).map (fun a =>
      (numericCols t).map (fun b => pearson a.optVals b.optVals))).getD i []).getD j 0) =
      pearson ((numericCols t)[i]).optVals ((numericCols t)[j]).optVals := by
  simp only [List.getD_eq_getElem?_getD, List.getElem?_map,
    List.getElem?_eq_getElem hi, List.getElem?_eq_getElem hj,
    Option.map_some', Option.getD_some]

/-- Claim C3: `correlation_matrix` returns the not-renderable sentinel on
every table with fewer than 2 numeric columns; on every table with at
least 2 numeric columns, none of zero variance, it returns a matrix that
is symmetric with 1 on the diagonal. -/
theorem C3_correlation_matrix (t : Table) :
    ((numericCols t).length < 2 → correlation_matrix t = none) ∧
    (2 ≤ (numericCols t).length →
      (∀ c ∈ numericCols t, Col.varNum c ≠ 0) →
      ∃ M, correlation_matrix t = some M ∧
        (∀ i j, i < (numericCols t).length → j < (numericCols t).length →
          (M.getD i []).getD j 0 = (M.getD j []).getD i 0) ∧
        (∀ i, i < (numericCols t).length → (M.getD i []).getD i 0 = 1)) := by
  constructor
  · intro h
    unfold correlation_matrix
    rw [if_pos h]
  · intro hlen hvar
    refine ⟨(numericCols t).map (fun a =>
      (numericCols t).map (fun b => pearson a.optVals b.optVals)), ?_, ?_, ?_⟩
    · unfold correlation_matrix
      rw [if_neg (by omega)]
    · intro i j hi hj
      rw [corr_entry t i j hi hj, corr_entry t j i hj hi, pearson_comm]
    · intro i hi
      rw [corr_entry t i i hi hi]
      apply pearson_self
      intro h0
      apply hvar ((numericCols t)[i]) (List.getElem_mem hi)
      unfold Col.varNum varQ
      rw [show sqDev (Col.presentVals ((numericCols t)[i])) = 0 from h0]
      exact zero_div _

/-- Witness for C3 at a concrete input: the two-numeric-column table with
columns a = 1, 2 and b = 1, 3, both of nonzero variance. -/
theorem C3_witness :
    2 ≤ (numericCols exNumTable).length ∧
    Col.varNum (Col.mk "a" [Cell.num 1, Cell.num 2]) ≠ 0 ∧
    Col.varNum (Col.mk "b" [Cell.num 1, Cell.num 3]) ≠ 0 ∧
    (((correlation_matrix exNumTable).getD []).getD 0 []).getD 0 0 = 1 ∧
    (((correlation_matrix exNumTable).getD []).getD 1 []).getD 1 0 = 1 ∧
    (((correlation_matrix exNumTable).getD []).getD 0 []).getD 1 0 =
      (((correlation_matrix exNumTable).getD []).getD 1 []).getD 0 0 := by
  obtain ⟨M, hM, hsym, hdiag⟩ := (C3_correlation_matrix exNumTable).2 (by decide)
    (by
      intro c hc
      have hc2 : c ∈ [Col.mk "a" [Cell.num 1, Cell.num 2],
          Col.mk "b" [Cell.num 1, Cell.num 3]] := hc
      rcases List.mem_cons.mp hc2 with h1 | h1
      · rw [h1]
        with_unfolding_all decide
      · rw [List.mem_singleton.mp h1]
        with_unfolding_all decide)
  have hMget : (correlation_matrix exNumTable).getD [] = M := by
    rw [hM]
    rfl
  refine ⟨by decide, by with_unfolding_all decide, by with_unfolding_all decide,
    ?_, ?_, ?_⟩
  · rw [hMget]
    exact hdiag 0 (by decide)
  · rw [hMget]
    exact hdiag 1 (by decide)
  · rw [hMget]
    exact hsym 0 1 (by decide) (by decide)
